import Mathlib

/-!
Shallow embedding of the TTM (trailing-twelve-months) calculation engine of
`src/analysis/scripts/ttm_calculations.py` (class `TTMCalculator`), together
with proofs of the behavioural properties claimed for it.

Modelling conventions:
* a pandas DataFrame of quarterly observations is a `List Row`;
* a numeric cell is `Option ℚ` — `none` models pandas `NaN` ("undefined"),
  `some v` a numeric value;
* pandas `Series.sum()` (default `skipna=True`) is `seriesSum`: it sums the
  defined values and ignores `NaN` cells (an all-`NaN` column sums to `0`);
* pandas `Series.mean()` (default `skipna=True`) is `seriesMean`: the mean of
  the defined values, `NaN` (`none`) when no cell is defined;
* Python's `list.index` wrapped in `try/except ValueError` returning `-1`
  (method `_get_period_index`) is `get_period_index : String → Int`;
* Python's `round(x, 4)` (round-half-to-even at 4 decimal places) is `round4`;
* the implicit pandas `KeyError` raised on accessing an absent column is made
  explicit in a `Frame` wrapper carrying the column list, with an
  `Except String` result type.
-/

namespace TTM

/-- Column names addressable by the calculator (the numeric columns the
source accesses by string name). -/
inductive FieldName : Type
  | Lucro_Liquido
  | Patrimonio_Liquido
  | Ativo_Total
  | Carteira_de_Credito_Classificada
  | Resultado_de_Intermediacao_Financeira
deriving DecidableEq

/-- The pandas column-name string of a field. -/
def columnName : FieldName → String
  | .Lucro_Liquido => "Lucro_Liquido"
  | .Patrimonio_Liquido => "Patrimonio_Liquido"
  | .Ativo_Total => "Ativo_Total"
  | .Carteira_de_Credito_Classificada => "Carteira_de_Credito_Classificada"
  | .Resultado_de_Intermediacao_Financeira => "Resultado_de_Intermediacao_Financeira"

/-- One DataFrame row: an institution observation. A numeric cell is
`Option ℚ`; `none` models a pandas `NaN`. -/
structure Row : Type where
  CodInst : String
  NomeInstituicao : String
  AnoMes_Q : String
  Lucro_Liquido : Option ℚ
  Patrimonio_Liquido : Option ℚ
  Ativo_Total : Option ℚ
  Carteira_de_Credito_Classificada : Option ℚ
  Resultado_de_Intermediacao_Financeira : Option ℚ
deriving DecidableEq

/-- Column access `row[column]` for the numeric columns. -/
def Row.getField (r : Row) : FieldName → Option ℚ
  | .Lucro_Liquido => r.Lucro_Liquido
  | .Patrimonio_Liquido => r.Patrimonio_Liquido
  | .Ativo_Total => r.Ativo_Total
  | .Carteira_de_Credito_Classificada => r.Carteira_de_Credito_Classificada
  | .Resultado_de_Intermediacao_Financeira => r.Resultado_de_Intermediacao_Financeira

/-- Replace one numeric column of a row (used to state algebraic properties
such as sum-linearity; not part of the source API). -/
def Row.setField (r : Row) : FieldName → Option ℚ → Row
  | .Lucro_Liquido, v => { r with Lucro_Liquido := v }
  | .Patrimonio_Liquido, v => { r with Patrimonio_Liquido := v }
  | .Ativo_Total, v => { r with Ativo_Total := v }
  | .Carteira_de_Credito_Classificada, v =>
      { r with Carteira_de_Credito_Classificada := v }
  | .Resultado_de_Intermediacao_Financeira, v =>
      { r with Resultado_de_Intermediacao_Financeira := v }

/-- pandas `Series.sum()` with the default `skipna=True`: `NaN` cells are
skipped, and an all-`NaN` (or empty) series sums to `0`. -/
def seriesSum (vals : List (Option ℚ)) : ℚ :=
  (vals.filterMap id).sum

/-- pandas `Series.mean()` with the default `skipna=True`: the mean of the
defined cells, or `NaN` (`none`) when every cell is `NaN`. -/
def seriesMean (vals : List (Option ℚ)) : Option ℚ :=
  let xs := vals.filterMap id
  if xs.length = 0 then none else some (xs.sum / (xs.length : ℚ))

/-- `TTMCalculator._generate_quarter_sequence`: the hardcoded canonical
quarter labels, `2013Q1` through `2024Q4` (`range(2013, 2025)`). -/
def quarter_sequence : List String :=
  (List.range 12).flatMap (fun y =>
    [1, 2, 3, 4].map (fun q => s!"{2013 + y}Q{q}"))

/-- Index of a string in a list, with Python's `list.index` + caught
`ValueError` behaviour: the first index of the element, or `-1` if absent. -/
def idxOrNeg : List String → String → Int
  | [], _ => -1
  | q :: rest, p =>
      if q = p then 0
      else
        let r := idxOrNeg rest p
        if r < 0 then -1 else r + 1

/-- `TTMCalculator._get_period_index`: position of a period label in the
canonical quarter sequence, `-1` when the label is not in the sequence. -/
def get_period_index (period : String) : Int :=
  idxOrNeg quarter_sequence period

/-- The slice `quarter_sequence[idx-3 : idx+1]` of the source: the 4
consecutive period labels ending at and including `period` (meaningful once
`get_period_index period ≥ 3`). -/
def last_4_quarters (period : String) : List String :=
  (quarter_sequence.drop (get_period_index period - 3).toNat).take 4

/-- The slice `quarter_sequence[idx-4 : idx+1]` of the source: the 5
consecutive period labels ending at and including `period` (meaningful once
`get_period_index period ≥ 4`). -/
def last_5_quarters (period : String) : List String :=
  (quarter_sequence.drop (get_period_index period - 4).toNat).take 5

/-- The rows of `df` selected by `calculate_ttm_income`:
`(df['CodInst'] == institution_code) & (df['AnoMes_Q'].isin(last_4_quarters))`. -/
def ttmWindowRows (df : List Row) (institution_code period : String) : List Row :=
  df.filter (fun r =>
    r.CodInst == institution_code && (last_4_quarters period).contains r.AnoMes_Q)

/-- The rows of `df` selected by `calculate_average_balance`:
`(df['CodInst'] == institution_code) & (df['AnoMes_Q'].isin(last_5_quarters))`. -/
def avgWindowRows (df : List Row) (institution_code period : String) : List Row :=
  df.filter (fun r =>
    r.CodInst == institution_code && (last_5_quarters period).contains r.AnoMes_Q)

/-- `TTMCalculator.calculate_ttm_income`: sum of the requested flow column
over the institution's rows in the 4-quarter window ending at `period`;
`NaN` (`none`) when the period resolves below index 3 or fewer than 4 rows
match. -/
def calculate_ttm_income (df : List Row) (institution_code period : String)
    (income_column : FieldName) : Option ℚ :=
  let period_idx := get_period_index period
  if period_idx < 3 then none
  else
    let inst_data := ttmWindowRows df institution_code period
    if inst_data.length < 4 then none
    else some (seriesSum (inst_data.map (fun r => r.getField income_column)))

/-- `TTMCalculator.calculate_average_balance`: mean of the requested stock
column over the institution's rows in the 5-quarter window ending at
`period`; `NaN` (`none`) when the period resolves below index 4 or fewer
than 5 rows match (and, through pandas `mean()`, when every matching cell is
`NaN`). -/
def calculate_average_balance (df : List Row) (institution_code period : String)
    (balance_column : FieldName) : Option ℚ :=
  let period_idx := get_period_index period
  if period_idx < 4 then none
  else
    let inst_data := avgWindowRows df institution_code period
    if inst_data.length < 5 then none
    else seriesMean (inst_data.map (fun r => r.getField balance_column))

/-- Audit-trail dictionary returned by `calculate_roe_ttm`. -/
structure RoeDetails : Type where
  ttm_net_income : Option ℚ
  avg_equity : Option ℚ
  roe_percent : Option ℚ
  methodology : String
  formula : String
deriving DecidableEq

/-- Audit-trail dictionary returned by `calculate_roa_ttm`. -/
structure RoaDetails : Type where
  ttm_net_income : Option ℚ
  avg_assets : Option ℚ
  roa_percent : Option ℚ
  methodology : String
  formula : String
deriving DecidableEq

/-- Audit-trail dictionary returned by `calculate_nim_ttm`. -/
structure NimDetails : Type where
  ttm_net_interest_income : Option ℚ
  avg_earning_assets : Option ℚ
  nim_percent : Option ℚ
  methodology : String
  formula : String
deriving DecidableEq

/-- `TTMCalculator.calculate_roe_ttm`: TTM net income over 5-quarter average
equity, ×100; `NaN` when either input is `NaN` or average equity ≤ 0.
Always returns the audit-detail record alongside. -/
def calculate_roe_ttm (df : List Row) (institution_code period : String) :
    Option ℚ × RoeDetails :=
  let ttm_income := calculate_ttm_income df institution_code period .Lucro_Liquido
  let avg_equity := calculate_average_balance df institution_code period .Patrimonio_Liquido
  let roe : Option ℚ :=
    match ttm_income, avg_equity with
    | some ti, some ae => if ae ≤ 0 then none else some (ti / ae * 100)
    | _, _ => none
  (roe,
    { ttm_net_income := ttm_income
      avg_equity := avg_equity
      roe_percent := roe
      methodology := "TTM Income / Average Equity (5Q)"
      formula := "(Sum Last 4Q Net Income) / (Avg Last 5Q Equity) × 100" })

/-- `TTMCalculator.calculate_roa_ttm`: TTM net income over 5-quarter average
total assets, ×100; same guards as ROE. -/
def calculate_roa_ttm (df : List Row) (institution_code period : String) :
    Option ℚ × RoaDetails :=
  let ttm_income := calculate_ttm_income df institution_code period .Lucro_Liquido
  let avg_assets := calculate_average_balance df institution_code period .Ativo_Total
  let roa : Option ℚ :=
    match ttm_income, avg_assets with
    | some ti, some aa => if aa ≤ 0 then none else some (ti / aa * 100)
    | _, _ => none
  (roa,
    { ttm_net_income := ttm_income
      avg_assets := avg_assets
      roa_percent := roa
      methodology := "TTM Income / Average Assets (5Q)"
      formula := "(Sum Last 4Q Net Income) / (Avg Last 5Q Assets) × 100" })

/-- `TTMCalculator.calculate_nim_ttm`: TTM net-interest result over 5-quarter
average credit portfolio (the source's explicit earning-assets
approximation), ×100; same guards. -/
def calculate_nim_ttm (df : List Row) (institution_code period : String) :
    Option ℚ × NimDetails :=
  let ttm_interest_income :=
    calculate_ttm_income df institution_code period .Resultado_de_Intermediacao_Financeira
  let credit_avg :=
    calculate_average_balance df institution_code period .Carteira_de_Credito_Classificada
  let nim : Option ℚ :=
    match ttm_interest_income, credit_avg with
    | some ti, some ea => if ea ≤ 0 then none else some (ti / ea * 100)
    | _, _ => none
  (nim,
    { ttm_net_interest_income := ttm_interest_income
      avg_earning_assets := credit_avg
      nim_percent := nim
      methodology := "TTM Interest Result / Average Credit Portfolio"
      formula := "(Sum Last 4Q Interest Result) / (Avg Last 5Q Credit) × 100" })

/-- Round-half-to-even to an integer (Python's `round` tie-breaking rule). -/
def roundHalfEven (x : ℚ) : ℤ :=
  let f := ⌊x⌋
  let frac := x - (f : ℚ)
  if frac < 1 / 2 then f
  else if 1 / 2 < frac then f + 1
  else if f % 2 = 0 then f else f + 1

/-- Python's `round(x, 4)`: round-half-to-even at 4 decimal places. -/
def round4 (x : ℚ) : ℚ :=
  (roundHalfEven (x * 10000) : ℚ) / 10000

/-- One output row of `calculate_all_ttm_ratios`. -/
structure TTMRow : Type where
  CodInst : String
  NomeInstituicao : String
  AnoMes_Q : String
  ROE_TTM : Option ℚ
  ROA_TTM : Option ℚ
  NIM_TTM : Option ℚ
  TTM_Net_Income : Option ℚ
  Avg_Equity : Option ℚ
  Avg_Assets : Option ℚ
  Calculation_Method : String
deriving DecidableEq

/-- First-occurrence deduplication with an accumulator of already-seen keys:
the semantics of pandas `DataFrame.drop_duplicates()` (keep the first
occurrence, preserve input order). -/
def dropDupAux {α : Type} [DecidableEq α] (seen : List α) : List α → List α
  | [] => []
  | a :: rest =>
      if a ∈ seen then dropDupAux seen rest
      else a :: dropDupAux (a :: seen) rest

/-- pandas `drop_duplicates`: keep the first occurrence of each element,
preserving input order. -/
def drop_duplicates {α : Type} [DecidableEq α] (l : List α) : List α :=
  dropDupAux [] l

/-- The key triple `(CodInst, NomeInstituicao, AnoMes_Q)` of a row, as
selected by the batch driver before `drop_duplicates`. -/
def Row.triple (r : Row) : String × String × String :=
  (r.CodInst, r.NomeInstituicao, r.AnoMes_Q)

/-- The output row assembled by `calculate_all_ttm_ratios` for one
institution-period combination. -/
def buildResultRow (df : List Row) (c : String × String × String) : TTMRow :=
  let roePair := calculate_roe_ttm df c.1 c.2.2
  let roaPair := calculate_roa_ttm df c.1 c.2.2
  let nimPair := calculate_nim_ttm df c.1 c.2.2
  { CodInst := c.1
    NomeInstituicao := c.2.1
    AnoMes_Q := c.2.2
    ROE_TTM := roePair.1.map round4
    ROA_TTM := roaPair.1.map round4
    NIM_TTM := nimPair.1.map round4
    TTM_Net_Income := roePair.2.ttm_net_income
    Avg_Equity := roePair.2.avg_equity
    Avg_Assets := roaPair.2.avg_assets
    Calculation_Method := "BACEN_TTM_Standard" }

/-- `TTMCalculator.calculate_all_ttm_ratios`: one output row per distinct
`(CodInst, NomeInstituicao, AnoMes_Q)` combination occurring in the input
(pandas `drop_duplicates`, first occurrence kept), each carrying the rounded
TTM ratios and the audit fields. The source's progress printing is I/O only
and is not modelled. -/
def calculate_all_ttm_ratios (df : List Row) : List TTMRow :=
  let combinations := drop_duplicates (df.map Row.triple)
  combinations.map (buildResultRow df)

/-- The columns the calculator reads from the input frame. -/
def requiredColumns : List String :=
  ["CodInst", "NomeInstituicao", "AnoMes_Q", "Lucro_Liquido",
   "Patrimonio_Liquido", "Ativo_Total", "Carteira_de_Credito_Classificada",
   "Resultado_de_Intermediacao_Financeira"]

/-- A DataFrame together with its column list, to make the implicit pandas
`KeyError` on a missing column explicit. -/
structure Frame : Type where
  columns : List String
  rows : List Row

/-- Modelled from the source's implicit column accesses: running
`calculate_all_ttm_ratios` on a frame raises `KeyError` (here
`Except.error` carrying the first missing column name) when a required
column is absent, and otherwise returns the computed batch. -/
def checked_calculate_all_ttm_ratios (f : Frame) : Except String (List TTMRow) :=
  match requiredColumns.find? (fun c => !(f.columns.contains c)) with
  | some c => .error c
  | none => .ok (calculate_all_ttm_ratios f.rows)

/-! ### Sample series used to witness the universally quantified theorems -/

/-- Build a sample observation row for the scenario institution. -/
def mkRow (inst name p : String) (inc eq : Option ℚ) : Row :=
  { CodInst := inst
    NomeInstituicao := name
    AnoMes_Q := p
    Lucro_Liquido := inc
    Patrimonio_Liquido := eq
    Ativo_Total := none
    Carteira_de_Credito_Classificada := none
    Resultado_de_Intermediacao_Financeira := none }

/-- End-to-end scenario 1 of the spec: institution `X`, net income
10, 12, 11, 13 over `2023Q4`..`2024Q3` and equity 100, 102, 104, 106, 108
over `2023Q3`..`2024Q3`. -/
def sampleX : List Row :=
  [mkRow "X" "Bank X" "2023Q3" none (some 100),
   mkRow "X" "Bank X" "2023Q4" (some 10) (some 102),
   mkRow "X" "Bank X" "2024Q1" (some 12) (some 104),
   mkRow "X" "Bank X" "2024Q2" (some 11) (some 106),
   mkRow "X" "Bank X" "2024Q3" (some 13) (some 108)]

/-- A series whose 4-quarter income window and 5-quarter equity window are
complete in rows but carry one missing (`NaN`) cell each: income
10, `NaN`, 11, 13 over `2023Q4`..`2024Q3` and equity `NaN`, 102, 104, 106,
108 over `2023Q3`..`2024Q3`. -/
def gapX : List Row :=
  [mkRow "X" "Bank X" "2023Q3" none none,
   mkRow "X" "Bank X" "2023Q4" (some 10) (some 102),
   mkRow "X" "Bank X" "2024Q1" none (some 104),
   mkRow "X" "Bank X" "2024Q2" (some 11) (some 106),
   mkRow "X" "Bank X" "2024Q3" (some 13) (some 108)]

/-! ### Shared lemmas about the calculator -/

theorem calculate_ttm_income_eq (df : List Row) (inst p : String) (f : FieldName) :
    calculate_ttm_income df inst p f =
      if get_period_index p < 3 then none
      else if (ttmWindowRows df inst p).length < 4 then none
      else some (seriesSum ((ttmWindowRows df inst p).map (fun r => r.getField f))) :=
  rfl

theorem calculate_average_balance_eq (df : List Row) (inst p : String) (f : FieldName) :
    calculate_average_balance df inst p f =
      if get_period_index p < 4 then none
      else if (avgWindowRows df inst p).length < 5 then none
      else seriesMean ((avgWindowRows df inst p).map (fun r => r.getField f)) :=
  rfl

theorem filterMap_id_map_some (vs : List ℚ) :
    (vs.map some).filterMap id = vs := by
  induction vs with
  | nil => rfl
  | cons v vs ih => simp [ih]

theorem seriesSum_map_some (vs : List ℚ) : seriesSum (vs.map some) = vs.sum := by
  simp [seriesSum, filterMap_id_map_some]

theorem seriesMean_map_some (vs : List ℚ) (h : vs ≠ []) :
    seriesMean (vs.map some) = some (vs.sum / (vs.length : ℚ)) := by
  simp only [seriesMean, filterMap_id_map_some]
  rw [if_neg (by simpa [List.length_eq_zero] using h)]

/-- `calculate_ttm_income` is `NaN` exactly on an unresolvable or too-early
period, or an incomplete 4-row window. -/
theorem ttm_income_none_iff (df : List Row) (inst p : String) (f : FieldName) :
    calculate_ttm_income df inst p f = none ↔
      get_period_index p < 3 ∨ (ttmWindowRows df inst p).length < 4 := by
  rw [calculate_ttm_income_eq]
  split
  · simp [*]
  · split <;> simp [*]

/-- When the guards pass and the window cells are all defined,
`calculate_ttm_income` is the plain sum of the window values. -/
theorem ttm_income_eq_sum (df : List Row) (inst p : String) (f : FieldName)
    (vs : List ℚ)
    (hvals : (ttmWindowRows df inst p).map (fun r => r.getField f) = vs.map some)
    (hidx : 3 ≤ get_period_index p)
    (hlen : 4 ≤ (ttmWindowRows df inst p).length) :
    calculate_ttm_income df inst p f = some vs.sum := by
  have h3 : ¬ get_period_index p < 3 := by omega
  have h4 : ¬ (ttmWindowRows df inst p).length < 4 := by omega
  rw [calculate_ttm_income_eq, if_neg h3, if_neg h4, hvals, seriesSum_map_some]

theorem avg_balance_none_of (df : List Row) (inst p : String) (f : FieldName)
    (h : get_period_index p < 4 ∨ (avgWindowRows df inst p).length < 5) :
    calculate_average_balance df inst p f = none := by
  rw [calculate_average_balance_eq]
  rcases h with h | h
  · rw [if_pos h]
  · by_cases h4 : get_period_index p < 4
    · rw [if_pos h4]
    · rw [if_neg h4, if_pos h]

/-- When the guards pass and the window cells are all defined,
`calculate_average_balance` is the arithmetic mean of the window values. -/
theorem avg_balance_eq_mean (df : List Row) (inst p : String) (f : FieldName)
    (vs : List ℚ)
    (hvals : (avgWindowRows df inst p).map (fun r => r.getField f) = vs.map some)
    (hidx : 4 ≤ get_period_index p)
    (hlen : 5 ≤ (avgWindowRows df inst p).length) :
    calculate_average_balance df inst p f = some (vs.sum / (vs.length : ℚ)) := by
  have hne : vs ≠ [] := by
    intro hv
    rw [hv, List.map_nil, List.map_eq_nil_iff] at hvals
    rw [hvals] at hlen
    simp at hlen
  have h4 : ¬ get_period_index p < 4 := by omega
  have h5 : ¬ (avgWindowRows df inst p).length < 5 := by omega
  rw [calculate_average_balance_eq, if_neg h4, if_neg h5, hvals,
    seriesMean_map_some _ hne]

/-- Characterisation of `calculate_roe_ttm`: when the ratio is `NaN`, when it
is the percentage quotient, and what the audit record holds. -/
theorem roe_ttm_spec (df : List Row) (inst p : String) :
    ((calculate_roe_ttm df inst p).1 = none ↔
      calculate_ttm_income df inst p .Lucro_Liquido = none ∨
      calculate_average_balance df inst p .Patrimonio_Liquido = none ∨
      ∃ ae, calculate_average_balance df inst p .Patrimonio_Liquido = some ae ∧
        ae ≤ 0) ∧
    (∀ ti ae, calculate_ttm_income df inst p .Lucro_Liquido = some ti →
      calculate_average_balance df inst p .Patrimonio_Liquido = some ae →
      0 < ae → (calculate_roe_ttm df inst p).1 = some (ti / ae * 100)) ∧
    (calculate_roe_ttm df inst p).2.ttm_net_income =
      calculate_ttm_income df inst p .Lucro_Liquido ∧
    (calculate_roe_ttm df inst p).2.avg_equity =
      calculate_average_balance df inst p .Patrimonio_Liquido ∧
    (calculate_roe_ttm df inst p).2.roe_percent = (calculate_roe_ttm df inst p).1 ∧
    (calculate_roe_ttm df inst p).2.methodology = "TTM Income / Average Equity (5Q)" := by
  unfold calculate_roe_ttm
  refine ⟨?_, ?_, rfl, rfl, rfl, rfl⟩
  · cases hti : calculate_ttm_income df inst p .Lucro_Liquido with
    | none => simp
    | some ti =>
      cases hae : calculate_average_balance df inst p .Patrimonio_Liquido with
      | none => simp
      | some ae =>
        by_cases hle : ae ≤ 0
        · simp [hle]
        · simp only [if_neg hle]
          constructor
          · intro h
            exact absurd h (by simp)
          · rintro (h | h | ⟨ae2, hae2, hle2⟩)
            · exact absurd h (by simp)
            · exact absurd h (by simp)
            · rw [Option.some_inj] at hae2
              exact absurd (hae2 ▸ hle2) hle
  · intro ti ae hti hae hpos
    rw [hti, hae]
    simp only
    rw [if_neg (not_le.mpr hpos)]

/-- Characterisation of `calculate_roa_ttm`, mirroring `roe_ttm_spec`. -/
theorem roa_ttm_spec (df : List Row) (inst p : String) :
    ((calculate_roa_ttm df inst p).1 = none ↔
      calculate_ttm_income df inst p .Lucro_Liquido = none ∨
      calculate_average_balance df inst p .Ativo_Total = none ∨
      ∃ aa, calculate_average_balance df inst p .Ativo_Total = some aa ∧ aa ≤ 0) ∧
    (∀ ti aa, calculate_ttm_income df inst p .Lucro_Liquido = some ti →
      calculate_average_balance df inst p .Ativo_Total = some aa →
      0 < aa → (calculate_roa_ttm df inst p).1 = some (ti / aa * 100)) ∧
    (calculate_roa_ttm df inst p).2.ttm_net_income =
      calculate_ttm_income df inst p .Lucro_Liquido ∧
    (calculate_roa_ttm df inst p).2.avg_assets =
      calculate_average_balance df inst p .Ativo_Total := by
  unfold calculate_roa_ttm
  refine ⟨?_, ?_, rfl, rfl⟩
  · cases hti : calculate_ttm_income df inst p .Lucro_Liquido with
    | none => simp
    | some ti =>
      cases haa : calculate_average_balance df inst p .Ativo_Total with
      | none => simp
      | some aa =>
        by_cases hle : aa ≤ 0
        · simp [hle]
        · simp only [if_neg hle]
          constructor
          · intro h
            exact absurd h (by simp)
          · rintro (h | h | ⟨aa2, haa2, hle2⟩)
            · exact absurd h (by simp)
            · exact absurd h (by simp)
            · rw [Option.some_inj] at haa2
              exact absurd (haa2 ▸ hle2) hle
  · intro ti aa hti haa hpos
    rw [hti, haa]
    simp only
    rw [if_neg (not_le.mpr hpos)]

/-- Characterisation of `calculate_nim_ttm`, mirroring `roe_ttm_spec`. -/
theorem nim_ttm_spec (df : List Row) (inst p : String) :
    ((calculate_nim_ttm df inst p).1 = none ↔
      calculate_ttm_income df inst p .Resultado_de_Intermediacao_Financeira = none ∨
      calculate_average_balance df inst p .Carteira_de_Credito_Classificada = none ∨
      ∃ ea, calculate_average_balance df inst p .Carteira_de_Credito_Classificada
        = some ea ∧ ea ≤ 0) ∧
    (∀ ti ea,
      calculate_ttm_income df inst p .Resultado_de_Intermediacao_Financeira = some ti →
      calculate_average_balance df inst p .Carteira_de_Credito_Classificada = some ea →
      0 < ea → (calculate_nim_ttm df inst p).1 = some (ti / ea * 100)) := by
  unfold calculate_nim_ttm
  refine ⟨?_, ?_⟩
  · cases hti :
      calculate_ttm_income df inst p .Resultado_de_Intermediacao_Financeira with
    | none => simp
    | some ti =>
      cases hea :
        calculate_average_balance df inst p .Carteira_de_Credito_Classificada with
      | none => simp
      | some ea =>
        by_cases hle : ea ≤ 0
        · simp [hle]
        · simp only [if_neg hle]
          constructor
          · intro h
            exact absurd h (by simp)
          · rintro (h | h | ⟨ea2, hea2, hle2⟩)
            · exact absurd h (by simp)
            · exact absurd h (by simp)
            · rw [Option.some_inj] at hea2
              exact absurd (hea2 ▸ hle2) hle
  · intro ti ea hti hea hpos
    rw [hti, hea]
    simp only
    rw [if_neg (not_le.mpr hpos)]

/-! ### Period-index lemmas -/

theorem idxOrNeg_lt_length (l : List String) (p : String) :
    idxOrNeg l p < (l.length : Int) := by
  induction l with
  | nil => simp [idxOrNeg]
  | cons q rest ih =>
    by_cases hq : q = p
    · simp only [idxOrNeg, if_pos hq, List.length_cons]
      omega
    · by_cases hr : idxOrNeg rest p < 0
      · simp only [idxOrNeg, if_neg hq, if_pos hr, List.length_cons]
        omega
      · simp only [idxOrNeg, if_neg hq, if_neg hr, List.length_cons]
        omega

theorem idxOrNeg_neg_one_of_not_mem (l : List String) (p : String)
    (h : p ∉ l) : idxOrNeg l p = -1 := by
  induction l with
  | nil => rfl
  | cons q rest ih =>
    rw [List.mem_cons, not_or] at h
    have hq : ¬ q = p := fun hq => h.1 hq.symm
    have hr : idxOrNeg rest p = -1 := ih h.2
    simp [idxOrNeg, hq, hr]

theorem quarter_sequence_length : quarter_sequence.length = 48 := by decide

theorem get_period_index_lt (p : String) : get_period_index p < 48 := by
  have h := idxOrNeg_lt_length quarter_sequence p
  rw [quarter_sequence_length] at h
  exact_mod_cast h

set_option maxRecDepth 100000 in
theorem window4_index_le : ∀ n : Nat, n < 48 → 3 ≤ n →
    ∀ l ∈ (quarter_sequence.drop (n - 3)).take 4, get_period_index l ≤ (n : Int) := by
  decide

set_option maxRecDepth 100000 in
theorem window5_index_le : ∀ n : Nat, n < 48 → 4 ≤ n →
    ∀ l ∈ (quarter_sequence.drop (n - 4)).take 5, get_period_index l ≤ (n : Int) := by
  decide

theorem mem_ttmWindowRows (df : List Row) (inst p : String) (r : Row)
    (h : r ∈ ttmWindowRows df inst p) :
    r ∈ df ∧ r.CodInst = inst ∧ r.AnoMes_Q ∈ last_4_quarters p := by
  rw [ttmWindowRows, List.mem_filter] at h
  refine ⟨h.1, ?_, ?_⟩
  · have := h.2
    rw [Bool.and_eq_true, beq_iff_eq] at this
    exact this.1
  · have := h.2
    rw [Bool.and_eq_true] at this
    simpa using this.2

theorem mem_avgWindowRows (df : List Row) (inst p : String) (r : Row)
    (h : r ∈ avgWindowRows df inst p) :
    r ∈ df ∧ r.CodInst = inst ∧ r.AnoMes_Q ∈ last_5_quarters p := by
  rw [avgWindowRows, List.mem_filter] at h
  refine ⟨h.1, ?_, ?_⟩
  · have := h.2
    rw [Bool.and_eq_true, beq_iff_eq] at this
    exact this.1
  · have := h.2
    rw [Bool.and_eq_true] at this
    simpa using this.2

/-- Every label of the 4-quarter window resolves at or before the target
period, provided the target resolves at index ≥ 3. -/
theorem last_4_quarters_le (p : String) (h3 : 3 ≤ get_period_index p) :
    ∀ l ∈ last_4_quarters p, get_period_index l ≤ get_period_index p := by
  intro l hl
  have hlt : get_period_index p < 48 := get_period_index_lt p
  set k := get_period_index p with hk
  have hn : k = ((k.toNat : Nat) : Int) := by omega
  have hsub : (k - 3).toNat = k.toNat - 3 := by omega
  rw [last_4_quarters, hsub] at hl
  have := window4_index_le k.toNat (by omega) (by omega) l hl
  omega

/-- Every label of the 5-quarter window resolves at or before the target
period, provided the target resolves at index ≥ 4. -/
theorem last_5_quarters_le (p : String) (h4 : 4 ≤ get_period_index p) :
    ∀ l ∈ last_5_quarters p, get_period_index l ≤ get_period_index p := by
  intro l hl
  have hlt : get_period_index p < 48 := get_period_index_lt p
  set k := get_period_index p with hk
  have hsub : (k - 4).toNat = k.toNat - 4 := by omega
  rw [last_5_quarters, hsub] at hl
  have := window5_index_le k.toNat (by omega) (by omega) l hl
  omega

/-! ### Deduplication lemmas -/

theorem mem_dropDupAux {α : Type} [DecidableEq α] (l : List α) :
    ∀ (seen : List α) (x : α), x ∈ dropDupAux seen l ↔ x ∈ l ∧ x ∉ seen := by
  induction l with
  | nil => intro seen x; simp [dropDupAux]
  | cons a rest ih =>
    intro seen x
    by_cases ha : a ∈ seen
    · rw [dropDupAux, if_pos ha, ih]
      constructor
      · rintro ⟨h1, h2⟩
        exact ⟨List.mem_cons_of_mem a h1, h2⟩
      · rintro ⟨h1, h2⟩
        rcases List.mem_cons.mp h1 with h1 | h1
        · exact absurd (h1 ▸ ha) h2
        · exact ⟨h1, h2⟩
    · rw [dropDupAux, if_neg ha]
      constructor
      · intro hx
        rcases List.mem_cons.mp hx with hx | hx
        · exact ⟨hx ▸ List.mem_cons_self a rest, fun hc => ha (hx ▸ hc)⟩
        · rcases (ih (a :: seen) x).mp hx with ⟨h1, h2⟩
          rw [List.mem_cons, not_or] at h2
          exact ⟨List.mem_cons_of_mem a h1, h2.2⟩
      · rintro ⟨h1, h2⟩
        rcases List.mem_cons.mp h1 with h1 | h1
        · exact h1 ▸ List.mem_cons_self a _
        · by_cases hxa : x = a
          · exact hxa ▸ List.mem_cons_self a _
          · exact List.mem_cons_of_mem a
              ((ih (a :: seen) x).mpr ⟨h1, by
                rw [List.mem_cons, not_or]
                exact ⟨hxa, h2⟩⟩)

theorem nodup_dropDupAux {α : Type} [DecidableEq α] (l : List α) :
    ∀ seen : List α, (dropDupAux seen l).Nodup := by
  induction l with
  | nil => intro seen; simp [dropDupAux]
  | cons a rest ih =>
    intro seen
    by_cases ha : a ∈ seen
    · rw [dropDupAux, if_pos ha]
      exact ih seen
    · rw [dropDupAux, if_neg ha, List.nodup_cons]
      refine ⟨?_, ih (a :: seen)⟩
      intro hmem
      exact ((mem_dropDupAux rest (a :: seen) a).mp hmem).2
        (List.mem_cons_self a seen)

theorem mem_drop_duplicates {α : Type} [DecidableEq α] (l : List α) (x : α) :
    x ∈ drop_duplicates l ↔ x ∈ l := by
  rw [drop_duplicates, mem_dropDupAux]
  simp

theorem nodup_drop_duplicates {α : Type} [DecidableEq α] (l : List α) :
    (drop_duplicates l).Nodup :=
  nodup_dropDupAux l []

/-! ### Scaling a flow column (for sum-linearity) -/

/-- Multiply one numeric column of every row by a constant (`NaN` cells stay
`NaN`), leaving all other columns untouched. -/
def scaleField (k : ℚ) (f : FieldName) (df : List Row) : List Row :=
  df.map (fun r => r.setField f ((r.getField f).map (fun v => k * v)))

theorem setField_CodInst (r : Row) (f : FieldName) (v : Option ℚ) :
    (r.setField f v).CodInst = r.CodInst := by
  cases f <;> rfl

theorem setField_AnoMes_Q (r : Row) (f : FieldName) (v : Option ℚ) :
    (r.setField f v).AnoMes_Q = r.AnoMes_Q := by
  cases f <;> rfl

theorem getField_setField (r : Row) (f : FieldName) (v : Option ℚ) :
    (r.setField f v).getField f = v := by
  cases f <;> rfl

theorem ttmWindowRows_scaleField (k : ℚ) (f : FieldName) (df : List Row)
    (inst p : String) :
    ttmWindowRows (scaleField k f df) inst p =
      (ttmWindowRows df inst p).map
        (fun r => r.setField f ((r.getField f).map (fun v => k * v))) := by
  rw [ttmWindowRows, ttmWindowRows, scaleField, List.filter_map]
  congr 1
  apply List.filter_congr
  intro r _
  rw [Function.comp_apply, setField_CodInst, setField_AnoMes_Q]

theorem seriesSum_scale (k : ℚ) (vals : List (Option ℚ)) :
    seriesSum (vals.map (Option.map (fun v => k * v))) = k * seriesSum vals := by
  induction vals with
  | nil => simp [seriesSum]
  | cons v vs ih =>
    cases v with
    | none => simpa [seriesSum] using ih
    | some a =>
      simp [seriesSum] at ih ⊢
      rw [ih]
      ring

/-- Sum-linearity of `calculate_ttm_income`: scaling a flow column by `k`
scales the TTM sum by `k`, and preserves undefinedness. -/
theorem ttm_income_scaleField (k : ℚ) (f : FieldName) (df : List Row)
    (inst p : String) :
    calculate_ttm_income (scaleField k f df) inst p f =
      (calculate_ttm_income df inst p f).map (fun v => k * v) := by
  rw [calculate_ttm_income_eq, calculate_ttm_income_eq, ttmWindowRows_scaleField]
  by_cases h3 : get_period_index p < 3
  · rw [if_pos h3, if_pos h3]
    rfl
  · rw [if_neg h3, if_neg h3, List.length_map]
    by_cases h4 : (ttmWindowRows df inst p).length < 4
    · rw [if_pos h4, if_pos h4]
      rfl
    · rw [if_neg h4, if_neg h4, List.map_map]
      have hcomp : ((fun r => Row.getField r f) ∘
          (fun (r : Row) => r.setField f ((r.getField f).map (fun v => k * v)))) =
          fun (r : Row) => (r.getField f).map (fun v => k * v) := by
        funext r
        rw [Function.comp_apply, getField_setField]
      rw [hcomp,
        show ((ttmWindowRows df inst p).map
            (fun (r : Row) => (r.getField f).map (fun v => k * v))) =
          (((ttmWindowRows df inst p).map (fun r => r.getField f)).map
            (Option.map (fun v => k * v))) by rw [List.map_map]; rfl,
        seriesSum_scale]
      rfl

theorem ttm_lookback (df : List Row) (inst p : String) (f : FieldName)
    (h : calculate_ttm_income df inst p f ≠ none) :
    ∀ r ∈ ttmWindowRows df inst p,
      get_period_index r.AnoMes_Q ≤ get_period_index p := by
  rw [Ne, ttm_income_none_iff, not_or, not_lt] at h
  intro r hr
  exact last_4_quarters_le p h.1 r.AnoMes_Q (mem_ttmWindowRows df inst p r hr).2.2

theorem avg_lookback (df : List Row) (inst p : String) (f : FieldName)
    (h : calculate_average_balance df inst p f ≠ none) :
    ∀ r ∈ avgWindowRows df inst p,
      get_period_index r.AnoMes_Q ≤ get_period_index p := by
  have hA : ¬ (get_period_index p < 4 ∨ (avgWindowRows df inst p).length < 5) :=
    fun hA => h (avg_balance_none_of df inst p f hA)
  rw [not_or, not_lt] at hA
  intro r hr
  exact last_5_quarters_le p hA.1 r.AnoMes_Q (mem_avgWindowRows df inst p r hr).2.2

/-! ### The claims -/

/-- Claim C1: for every series, institution code, period label and flow
field, `calculate_ttm_income` returns undefined exactly when the period
label does not resolve in the canonical quarter sequence or resolves below
ordinal position 3, or when the institution has fewer than 4 rows in the
4-quarter window ending at the period; otherwise it returns the sum of the
flow field over those 4 matching rows. -/
theorem C1_ttm_income_contract (df : List Row) (inst p : String) (f : FieldName) :
    (calculate_ttm_income df inst p f = none ↔
      get_period_index p < 3 ∨ (ttmWindowRows df inst p).length < 4) ∧
    (∀ vs : List ℚ,
      (ttmWindowRows df inst p).map (fun r => r.getField f) = vs.map some →
      3 ≤ get_period_index p → (ttmWindowRows df inst p).length = 4 →
      calculate_ttm_income df inst p f = some vs.sum) :=
  ⟨ttm_income_none_iff df inst p f,
   fun vs hv hidx hlen => ttm_income_eq_sum df inst p f vs hv hidx (by omega)⟩

set_option maxRecDepth 100000 in
/-- Witness for C1, on end-to-end scenario 1. -/
theorem C1_witness :
    calculate_ttm_income sampleX "X" "2024Q3" FieldName.Lucro_Liquido =
      some ([(10 : ℚ), 12, 11, 13].sum) :=
  (C1_ttm_income_contract sampleX "X" "2024Q3" FieldName.Lucro_Liquido).2
    [10, 12, 11, 13] (by decide) (by decide) (by decide)

/-- Claim C2: for every series, institution code, period label and stock
field, `calculate_average_balance` returns undefined when the period
resolves below ordinal 4 or fewer than 5 rows of the institution fall in
the 5-quarter window ending at the period; otherwise it returns the
arithmetic mean of the stock field over those 5 rows. -/
theorem C2_average_balance_contract (df : List Row) (inst p : String) (f : FieldName) :
    (get_period_index p < 4 ∨ (avgWindowRows df inst p).length < 5 →
      calculate_average_balance df inst p f = none) ∧
    (∀ vs : List ℚ,
      (avgWindowRows df inst p).map (fun r => r.getField f) = vs.map some →
      4 ≤ get_period_index p → (avgWindowRows df inst p).length = 5 →
      calculate_average_balance df inst p f = some (vs.sum / 5)) := by
  refine ⟨avg_balance_none_of df inst p f, ?_⟩
  intro vs hv hidx hlen
  have h1 := congrArg List.length hv
  rw [List.length_map, List.length_map] at h1
  rw [avg_balance_eq_mean df inst p f vs hv hidx (by omega)]
  rw [show vs.length = 5 by omega]
  norm_num

set_option maxRecDepth 100000 in
/-- Witness for C2, on end-to-end scenario 1. -/
theorem C2_witness :
    calculate_average_balance sampleX "X" "2024Q3" FieldName.Patrimonio_Liquido =
      some ([(100 : ℚ), 102, 104, 106, 108].sum / 5) :=
  (C2_average_balance_contract sampleX "X" "2024Q3" FieldName.Patrimonio_Liquido).2
    [100, 102, 104, 106, 108] (by decide) (by decide) (by decide)

/-- Claim C3: `calculate_roe_ttm` returns undefined exactly when TTM net
income is undefined, average equity is undefined, or average equity ≤ 0;
otherwise it returns TTM net income over average equity ×100; and in every
case the returned audit record carries the TTM net income, the average
equity, and the methodology tag. -/
theorem C3_roe_contract (df : List Row) (inst p : String) :
    ((calculate_roe_ttm df inst p).1 = none ↔
      calculate_ttm_income df inst p .Lucro_Liquido = none ∨
      calculate_average_balance df inst p .Patrimonio_Liquido = none ∨
      ∃ ae, calculate_average_balance df inst p .Patrimonio_Liquido = some ae ∧
        ae ≤ 0) ∧
    (∀ ti ae, calculate_ttm_income df inst p .Lucro_Liquido = some ti →
      calculate_average_balance df inst p .Patrimonio_Liquido = some ae →
      0 < ae → (calculate_roe_ttm df inst p).1 = some (ti / ae * 100)) ∧
    (calculate_roe_ttm df inst p).2.ttm_net_income =
      calculate_ttm_income df inst p .Lucro_Liquido ∧
    (calculate_roe_ttm df inst p).2.avg_equity =
      calculate_average_balance df inst p .Patrimonio_Liquido ∧
    (calculate_roe_ttm df inst p).2.methodology = "TTM Income / Average Equity (5Q)" :=
  let s := roe_ttm_spec df inst p
  ⟨s.1, s.2.1, s.2.2.1, s.2.2.2.1, s.2.2.2.2.2⟩

set_option maxRecDepth 100000 in
/-- Witness for C3: at a period with under four quarters of calendar
history the ratio is undefined. -/
theorem C3_witness : (calculate_roe_ttm sampleX "X" "2013Q2").1 = none :=
  (C3_roe_contract sampleX "X" "2013Q2").1.mpr (Or.inl (by decide))

set_option maxRecDepth 100000 in
/-- Claim C4: end-to-end scenario 1 — institution `X` with net income
10, 12, 11, 13 over the 4 quarters ending `2024Q3` and equity
100, 102, 104, 106, 108 over the 5 quarters ending there: TTM income 46,
average equity 104, ROE = 46/104×100. -/
theorem C4_scenario1 :
    calculate_ttm_income sampleX "X" "2024Q3" FieldName.Lucro_Liquido = some 46 ∧
    calculate_average_balance sampleX "X" "2024Q3" FieldName.Patrimonio_Liquido =
      some 104 ∧
    (calculate_roe_ttm sampleX "X" "2024Q3").1 = some (46 / 104 * 100) := by
  have h1 : calculate_ttm_income sampleX "X" "2024Q3" FieldName.Lucro_Liquido =
      some 46 := by
    rw [ttm_income_eq_sum sampleX "X" "2024Q3" FieldName.Lucro_Liquido
      [10, 12, 11, 13] (by decide) (by decide) (by decide)]
    norm_num
  have h2 : calculate_average_balance sampleX "X" "2024Q3"
      FieldName.Patrimonio_Liquido = some 104 := by
    rw [avg_balance_eq_mean sampleX "X" "2024Q3" FieldName.Patrimonio_Liquido
      [100, 102, 104, 106, 108] (by decide) (by decide) (by decide)]
    norm_num
  exact ⟨h1, h2, (roe_ttm_spec sampleX "X" "2024Q3").2.1 46 104 h1 h2 (by norm_num)⟩

set_option maxRecDepth 100000 in
/-- Counterexample to C5 as stated: in `gapX` all 4 income-window rows are
present but one income cell is missing, yet `calculate_ttm_income` returns
the partial sum 34 (not undefined); likewise all 5 equity-window rows are
present with one missing equity cell, yet `calculate_average_balance`
returns 105, the mean of the 4 defined cells. -/
theorem C5_counterexample :
    (ttmWindowRows gapX "X" "2024Q3").map
      (fun r => r.getField FieldName.Lucro_Liquido) =
        [some 10, none, some 11, some 13] ∧
    calculate_ttm_income gapX "X" "2024Q3" FieldName.Lucro_Liquido = some 34 ∧
    (avgWindowRows gapX "X" "2024Q3").map
      (fun r => r.getField FieldName.Patrimonio_Liquido) =
        [none, some 102, some 104, some 106, some 108] ∧
    calculate_average_balance gapX "X" "2024Q3" FieldName.Patrimonio_Liquido =
      some 105 := by
  refine ⟨by decide, ?_, by decide, ?_⟩
  · rw [calculate_ttm_income_eq, if_neg (by decide), if_neg (by decide),
      show (ttmWindowRows gapX "X" "2024Q3").map
        (fun r => r.getField FieldName.Lucro_Liquido) =
          [some 10, none, some 11, some 13] from by decide]
    norm_num [seriesSum, List.filterMap_cons]
  · rw [calculate_average_balance_eq, if_neg (by decide), if_neg (by decide),
      show (avgWindowRows gapX "X" "2024Q3").map
        (fun r => r.getField FieldName.Patrimonio_Liquido) =
          [none, some 102, some 104, some 106, some 108] from by decide]
    norm_num [seriesMean, List.filterMap_cons]

/-- Claim C5 (amended): pandas `sum()`/`mean()` skip missing values, so with
all window rows present but some cells missing the code does not return
undefined: `calculate_ttm_income` returns the sum of the defined cells alone
(a partial sum), and `calculate_average_balance` returns the mean of the
defined cells alone, undefined only when every cell is missing. -/
theorem C5_amended_skipna (df : List Row) (inst p : String) (f : FieldName) :
    (3 ≤ get_period_index p → 4 ≤ (ttmWindowRows df inst p).length →
      calculate_ttm_income df inst p f =
        some ((ttmWindowRows df inst p).filterMap (fun r => r.getField f)).sum) ∧
    (4 ≤ get_period_index p → 5 ≤ (avgWindowRows df inst p).length →
      calculate_average_balance df inst p f =
        (if ((avgWindowRows df inst p).filterMap (fun r => r.getField f)).length = 0
          then none
          else some (((avgWindowRows df inst p).filterMap (fun r => r.getField f)).sum /
            (((avgWindowRows df inst p).filterMap (fun r => r.getField f)).length : ℚ)))) := by
  constructor
  · intro h3 h4
    rw [calculate_ttm_income_eq, if_neg (by omega), if_neg (by omega)]
    simp [seriesSum, List.filterMap_map, Function.comp_def]
  · intro h4 h5
    rw [calculate_average_balance_eq, if_neg (by omega), if_neg (by omega)]
    simp [seriesMean, List.filterMap_map, Function.comp_def]

set_option maxRecDepth 100000 in
/-- Witness for the amended C5, on the gapped series. -/
theorem C5_witness :
    calculate_ttm_income gapX "X" "2024Q3" FieldName.Lucro_Liquido =
      some ((ttmWindowRows gapX "X" "2024Q3").filterMap
        (fun r => r.getField FieldName.Lucro_Liquido)).sum :=
  (C5_amended_skipna gapX "X" "2024Q3" FieldName.Lucro_Liquido).1
    (by decide) (by decide)

/-- Claim C6: whenever `calculate_ttm_income`, `calculate_average_balance`,
or a derived ratio operation produces a defined result at period `p`, every
observation row contributing to it carries a period label at or before `p`
in the canonical quarter order — no look-ahead. -/
theorem C6_no_lookahead (df : List Row) (inst p : String) (f : FieldName) :
    (calculate_ttm_income df inst p f ≠ none →
      ∀ r ∈ ttmWindowRows df inst p,
        get_period_index r.AnoMes_Q ≤ get_period_index p) ∧
    (calculate_average_balance df inst p f ≠ none →
      ∀ r ∈ avgWindowRows df inst p,
        get_period_index r.AnoMes_Q ≤ get_period_index p) ∧
    ((calculate_roe_ttm df inst p).1 ≠ none →
      (∀ r ∈ ttmWindowRows df inst p,
        get_period_index r.AnoMes_Q ≤ get_period_index p) ∧
      (∀ r ∈ avgWindowRows df inst p,
        get_period_index r.AnoMes_Q ≤ get_period_index p)) ∧
    ((calculate_roa_ttm df inst p).1 ≠ none →
      (∀ r ∈ ttmWindowRows df inst p,
        get_period_index r.AnoMes_Q ≤ get_period_index p) ∧
      (∀ r ∈ avgWindowRows df inst p,
        get_period_index r.AnoMes_Q ≤ get_period_index p)) ∧
    ((calculate_nim_ttm df inst p).1 ≠ none →
      (∀ r ∈ ttmWindowRows df inst p,
        get_period_index r.AnoMes_Q ≤ get_period_index p) ∧
      (∀ r ∈ avgWindowRows df inst p,
        get_period_index r.AnoMes_Q ≤ get_period_index p)) := by
  refine ⟨ttm_lookback df inst p f, avg_lookback df inst p f, ?_, ?_, ?_⟩
  · intro h
    exact ⟨ttm_lookback df inst p _
        (fun hn => h ((roe_ttm_spec df inst p).1.mpr (Or.inl hn))),
      avg_lookback df inst p _
        (fun hn => h ((roe_ttm_spec df inst p).1.mpr (Or.inr (Or.inl hn))))⟩
  · intro h
    exact ⟨ttm_lookback df inst p _
        (fun hn => h ((roa_ttm_spec df inst p).1.mpr (Or.inl hn))),
      avg_lookback df inst p _
        (fun hn => h ((roa_ttm_spec df inst p).1.mpr (Or.inr (Or.inl hn))))⟩
  · intro h
    exact ⟨ttm_lookback df inst p _
        (fun hn => h ((nim_ttm_spec df inst p).1.mpr (Or.inl hn))),
      avg_lookback df inst p _
        (fun hn => h ((nim_ttm_spec df inst p).1.mpr (Or.inr (Or.inl hn))))⟩

set_option maxRecDepth 100000 in
/-- Witness for C6: in scenario 1 the `2023Q4` contributing row lies at or
before the `2024Q3` target. -/
theorem C6_witness :
    get_period_index (mkRow "X" "Bank X" "2023Q4" (some 10) (some 102)).AnoMes_Q ≤
      get_period_index "2024Q3" :=
  (C6_no_lookahead sampleX "X" "2024Q3" FieldName.Lucro_Liquido).1 (by decide)
    (mkRow "X" "Bank X" "2023Q4" (some 10) (some 102)) (by decide)

/-- Claim C7: on a series uniquely keyed by (institution code, period) —
so the display name is a function of the key — the batch driver emits
exactly one output row per observed (institution code, period) pair, no row
for unobserved pairs and no duplicates, each row carrying the rounded
ratios and the audit fields. -/
theorem C7_batch_contract (df : List Row)
    (hkey : ∀ r1 ∈ df, ∀ r2 ∈ df, r1.CodInst = r2.CodInst →
      r1.AnoMes_Q = r2.AnoMes_Q → r1.NomeInstituicao = r2.NomeInstituicao) :
    (∀ o ∈ calculate_all_ttm_ratios df, ∃ r ∈ df,
      r.CodInst = o.CodInst ∧ r.AnoMes_Q = o.AnoMes_Q) ∧
    (∀ r ∈ df, ∃ o ∈ calculate_all_ttm_ratios df,
      o.CodInst = r.CodInst ∧ o.AnoMes_Q = r.AnoMes_Q) ∧
    ((calculate_all_ttm_ratios df).map (fun o => (o.CodInst, o.AnoMes_Q))).Nodup ∧
    (∀ o ∈ calculate_all_ttm_ratios df,
      o.ROE_TTM = ((calculate_roe_ttm df o.CodInst o.AnoMes_Q).1).map round4 ∧
      o.ROA_TTM = ((calculate_roa_ttm df o.CodInst o.AnoMes_Q).1).map round4 ∧
      o.NIM_TTM = ((calculate_nim_ttm df o.CodInst o.AnoMes_Q).1).map round4 ∧
      o.TTM_Net_Income = (calculate_roe_ttm df o.CodInst o.AnoMes_Q).2.ttm_net_income ∧
      o.Avg_Equity = (calculate_roe_ttm df o.CodInst o.AnoMes_Q).2.avg_equity ∧
      o.Avg_Assets = (calculate_roa_ttm df o.CodInst o.AnoMes_Q).2.avg_assets ∧
      o.Calculation_Method = "BACEN_TTM_Standard") := by
  refine ⟨?_, ?_, ?_, ?_⟩
  · intro o ho
    rw [calculate_all_ttm_ratios, List.mem_map] at ho
    obtain ⟨c, hc, rfl⟩ := ho
    rw [mem_drop_duplicates, List.mem_map] at hc
    obtain ⟨r, hr, rfl⟩ := hc
    exact ⟨r, hr, rfl, rfl⟩
  · intro r hr
    refine ⟨buildResultRow df r.triple, ?_, rfl, rfl⟩
    rw [calculate_all_ttm_ratios]
    exact List.mem_map_of_mem _
      ((mem_drop_duplicates (df.map Row.triple) r.triple).mpr
        (List.mem_map_of_mem Row.triple hr))
  · rw [calculate_all_ttm_ratios, List.map_map]
    have hfun : ((fun o => (o.CodInst, o.AnoMes_Q)) ∘ buildResultRow df) =
        fun c : String × String × String => (c.1, c.2.2) := rfl
    rw [hfun]
    refine List.Nodup.map_on ?_ (nodup_drop_duplicates _)
    intro x hx y hy hxy
    rw [mem_drop_duplicates, List.mem_map] at hx hy
    obtain ⟨r1, hr1, rfl⟩ := hx
    obtain ⟨r2, hr2, rfl⟩ := hy
    have hci : r1.CodInst = r2.CodInst := congrArg Prod.fst hxy
    have hq : r1.AnoMes_Q = r2.AnoMes_Q := congrArg Prod.snd hxy
    have hn := hkey r1 hr1 r2 hr2 hci hq
    rw [Row.triple, Row.triple, hci, hq, hn]
  · intro o ho
    rw [calculate_all_ttm_ratios, List.mem_map] at ho
    obtain ⟨c, hc, rfl⟩ := ho
    exact ⟨rfl, rfl, rfl, rfl, rfl, rfl, rfl⟩

set_option maxRecDepth 100000 in
/-- Witness for C7: the batch output on scenario 1 has no duplicate
(institution, period) pair. -/
theorem C7_witness :
    ((calculate_all_ttm_ratios sampleX).map
      (fun o => (o.CodInst, o.AnoMes_Q))).Nodup :=
  (C7_batch_contract sampleX (by decide)).2.2.1

/-- Claim C8: per-pair computations never raise for insufficient history or
a non-positive denominator — those cases are undefined result cells — and
only a missing required column surfaces as a hard error to the caller. -/
theorem C8_failure_semantics (f : Frame) :
    ((∀ c ∈ requiredColumns, c ∈ f.columns) →
      checked_calculate_all_ttm_ratios f =
        Except.ok (calculate_all_ttm_ratios f.rows)) ∧
    (∀ e, checked_calculate_all_ttm_ratios f = Except.error e →
      e ∈ requiredColumns ∧ e ∉ f.columns) ∧
    (∀ inst p fl,
      get_period_index p < 3 ∨ (ttmWindowRows f.rows inst p).length < 4 →
      calculate_ttm_income f.rows inst p fl = none) ∧
    (∀ inst p ae,
      calculate_average_balance f.rows inst p .Patrimonio_Liquido = some ae →
      ae ≤ 0 → (calculate_roe_ttm f.rows inst p).1 = none) := by
  refine ⟨?_, ?_, ?_, ?_⟩
  · intro h
    have hfind : requiredColumns.find? (fun c => !(f.columns.contains c)) = none := by
      rw [List.find?_eq_none]
      intro x hx
      have hc : f.columns.contains x = true := by
        rw [List.contains_iff_exists_mem_beq]
        exact ⟨x, h x hx, by simp⟩
      rw [hc]
      simp
    rw [checked_calculate_all_ttm_ratios, hfind]
  · intro e he
    rw [checked_calculate_all_ttm_ratios] at he
    cases hf : requiredColumns.find? (fun c => !(f.columns.contains c)) with
    | none =>
      rw [hf] at he
      exact absurd he (by simp)
    | some c =>
      rw [hf] at he
      have hce : c = e := by injection he
      subst hce
      refine ⟨List.mem_of_find?_eq_some hf, ?_⟩
      intro hmem
      have hp := List.find?_some hf
      have hc : f.columns.contains c = true := by
        rw [List.contains_iff_exists_mem_beq]
        exact ⟨c, hmem, by simp⟩
      rw [hc] at hp
      exact absurd hp (by simp)
  · intro inst p fl h
    exact (ttm_income_none_iff f.rows inst p fl).mpr h
  · intro inst p ae hae hle
    exact (roe_ttm_spec f.rows inst p).1.mpr (Or.inr (Or.inr ⟨ae, hae, hle⟩))

set_option maxRecDepth 100000 in
/-- Witness for C8: with all required columns present the batch returns
`ok`, never an error. -/
theorem C8_witness :
    checked_calculate_all_ttm_ratios ⟨requiredColumns, sampleX⟩ =
      Except.ok (calculate_all_ttm_ratios sampleX) :=
  (C8_failure_semantics ⟨requiredColumns, sampleX⟩).1 (by decide)

/-- Claim C9: `calculate_ttm_income` is sum-linear — scaling every value of
the requested flow column by a constant `k` scales a defined TTM result by
exactly `k` and keeps an undefined result undefined. -/
theorem C9_sum_linear (k : ℚ) (df : List Row) (inst p : String) (f : FieldName) :
    calculate_ttm_income (scaleField k f df) inst p f =
      (calculate_ttm_income df inst p f).map (fun v => k * v) :=
  ttm_income_scaleField k f df inst p

set_option maxRecDepth 100000 in
/-- Claim C10: the canonical quarter sequence is hardcoded to exactly
`2013Q1`..`2024Q4`; any label outside it resolves to the sentinel `-1` and
every calculator operation returns undefined at such a period, regardless
of the series. -/
theorem C10_hardcoded_range (df : List Row) (inst : String) (f : FieldName)
    (p : String) (hp : p ∉ quarter_sequence) :
    quarter_sequence =
      ["2013Q1", "2013Q2", "2013Q3", "2013Q4", "2014Q1", "2014Q2",
       "2014Q3", "2014Q4", "2015Q1", "2015Q2", "2015Q3", "2015Q4",
       "2016Q1", "2016Q2", "2016Q3", "2016Q4", "2017Q1", "2017Q2",
       "2017Q3", "2017Q4", "2018Q1", "2018Q2", "2018Q3", "2018Q4",
       "2019Q1", "2019Q2", "2019Q3", "2019Q4", "2020Q1", "2020Q2",
       "2020Q3", "2020Q4", "2021Q1", "2021Q2", "2021Q3", "2021Q4",
       "2022Q1", "2022Q2", "2022Q3", "2022Q4", "2023Q1", "2023Q2",
       "2023Q3", "2023Q4", "2024Q1", "2024Q2", "2024Q3", "2024Q4"] ∧
    get_period_index p = -1 ∧
    calculate_ttm_income df inst p f = none ∧
    calculate_average_balance df inst p f = none ∧
    (calculate_roe_ttm df inst p).1 = none ∧
    (calculate_roa_ttm df inst p).1 = none ∧
    (calculate_nim_ttm df inst p).1 = none := by
  have hidx : get_period_index p = -1 := idxOrNeg_neg_one_of_not_mem _ p hp
  have httm : ∀ fl, calculate_ttm_income df inst p fl = none := fun fl =>
    (ttm_income_none_iff df inst p fl).mpr (Or.inl (by rw [hidx]; norm_num))
  have havg : ∀ fl, calculate_average_balance df inst p fl = none := fun fl =>
    avg_balance_none_of df inst p fl (Or.inl (by rw [hidx]; norm_num))
  refine ⟨by decide, hidx, httm _, havg _, ?_, ?_, ?_⟩
  · exact (roe_ttm_spec df inst p).1.mpr (Or.inl (httm _))
  · exact (roa_ttm_spec df inst p).1.mpr (Or.inl (httm _))
  · exact (nim_ttm_spec df inst p).1.mpr (Or.inl (httm _))

set_option maxRecDepth 100000 in
/-- Witness for C10, at the out-of-range label `2025Q1`. -/
theorem C10_witness :
    get_period_index "2025Q1" = -1 ∧
    calculate_ttm_income [] "X" "2025Q1" FieldName.Lucro_Liquido = none := by
  have h := C10_hardcoded_range [] "X" FieldName.Lucro_Liquido "2025Q1" (by decide)
  exact ⟨h.2.1, h.2.2.1⟩

end TTM
